import Mathlib

/-!
Verification of the global exception filter
(`src/common/exception/global-exception.filter.ts`).

The filter catches any value thrown during request handling, classifies it
(`handleException` / `isHandledError`), resolves a `ResponseInfo` and outward
message (`getHttpErrorInfo` for `HttpException`s), logs, and writes a JSON
error envelope.  JavaScript runtime behaviour is embedded explicitly: a
property access on `null`/`undefined` raises a `TypeError`, modelled with
`Except JsError`; a `message` field that is an array of strings is a
first-class value (`MsgVal.arr`), since the code can pass it through
unchanged.
-/

/-- A value that can sit in the `message` slot of an exception response body:
either a string or an array of strings (as produced e.g. by validation). -/
inductive MsgVal where
  | str (s : String)
  | arr (xs : List String)
deriving DecidableEq, Repr

/-- How a `MsgVal` renders inside a JS template literal: arrays stringify by
joining their elements with ",". -/
def MsgVal.display : MsgVal → String
  | .str s => s
  | .arr xs => String.intercalate "," xs

/-- What `HttpException.getResponse()` can return: a string, an object whose
`message` field is present or absent, or `null`/`undefined` (collapsed into
one constructor, since both raise `TypeError` on property access). -/
inductive RespBody where
  | str (s : String)
  | obj (message : Option MsgVal)
  | null
deriving DecidableEq, Repr

/-- The part of a NestJS `HttpException` the filter reads: `getStatus()`,
`getResponse()`, and the `Error` fields `message`, `name`, `stack`. -/
structure HttpException where
  status : Nat
  body : RespBody
  message : String
  name : String
  stack : Option String
deriving DecidableEq, Repr

/-- Modelled from the spec: a `ResponseInfo` is "a static lookup describing a
response category — a numeric status code and a canonical label"; the
constants file `constants/http.response-info.constants` is not in the
source excerpt. -/
structure ResponseInfo where
  status : Nat
  label : String
deriving DecidableEq, Repr

/-- Modelled from the spec: 400 → BAD_REQUEST. -/
def BAD_REQUEST : ResponseInfo := ⟨400, "BAD_REQUEST"⟩

/-- Modelled from the spec: 401 → UNAUTHORIZED. -/
def UNAUTHORIZED : ResponseInfo := ⟨401, "UNAUTHORIZED"⟩

/-- Modelled from the spec: 403 → FORBIDDEN. -/
def FORBIDDEN : ResponseInfo := ⟨403, "FORBIDDEN"⟩

/-- Modelled from the spec: 404 → NOT_FOUND. -/
def NOT_FOUND : ResponseInfo := ⟨404, "NOT_FOUND"⟩

/-- Modelled from the spec: 409 → CONFLICT. -/
def CONFLICT : ResponseInfo := ⟨409, "CONFLICT"⟩

/-- Modelled from the spec: 410 → GONE. -/
def GONE : ResponseInfo := ⟨410, "GONE"⟩

/-- Modelled from the spec: 413 → PAYLOAD_TOO_LARGE. -/
def PAYLOAD_TOO_LARGE : ResponseInfo := ⟨413, "PAYLOAD_TOO_LARGE"⟩

/-- Modelled from the spec: 415 → UNSUPPORTED_MEDIA_TYPE. -/
def UNSUPPORTED_MEDIA_TYPE : ResponseInfo := ⟨415, "UNSUPPORTED_MEDIA_TYPE"⟩

/-- Modelled from the spec: 422 → UNPROCESSABLE_ENTITY. -/
def UNPROCESSABLE_ENTITY : ResponseInfo := ⟨422, "UNPROCESSABLE_ENTITY"⟩

/-- Modelled from the spec: 500 → INTERNAL_SERVER_ERROR. -/
def INTERNAL_SERVER_ERROR : ResponseInfo := ⟨500, "INTERNAL_SERVER_ERROR"⟩

/-- Modelled from the spec: 501 → NOT_IMPLEMENTED. -/
def NOT_IMPLEMENTED : ResponseInfo := ⟨501, "NOT_IMPLEMENTED"⟩

/-- Modelled from the spec: 503 → SERVICE_UNAVAILABLE. -/
def SERVICE_UNAVAILABLE : ResponseInfo := ⟨503, "SERVICE_UNAVAILABLE"⟩

/-- Modelled from the spec: the dedicated "unexpected error" category from
`constants/extra.response-info.constants` (status not fixed by the spec;
any value distinct in label works for the claims, 500 chosen). -/
def UNEXPECTED_ERROR : ResponseInfo := ⟨500, "UNEXPECTED_ERROR"⟩

/-- Modelled from the spec: the dedicated "undefined error" category from
`constants/extra.response-info.constants`. -/
def UNDEFINED_ERROR : ResponseInfo := ⟨500, "UNDEFINED_ERROR"⟩

/-- A JavaScript runtime error raised by the filter's own code — here only
the `TypeError` from reading `.message` off a nullish response body. -/
inductive JsError where
  | typeError
deriving DecidableEq, Repr

/-- The initial message extraction of `getHttpErrorInfo`:
`typeof r === 'string' ? r : (r as any).message || exception.message`.
An absent or empty-string `message` field is falsy, so it falls back to
`exception.message`; an array is truthy and passes through as an array;
a nullish body raises `TypeError` on the `.message` access. -/
def extractMessage (e : HttpException) : Except JsError MsgVal :=
  match e.body with
  | .str s => .ok (.str s)
  | .obj m =>
    match m with
    | some (.str s) => .ok (if s = "" then .str e.message else .str s)
    | some (.arr xs) => .ok (.arr xs)
    | none => .ok (.str e.message)
  | .null => .error .typeError

/-- `getHttpErrorInfo`: resolves the `ResponseInfo` from the status via the
switch (a `match` over the same literal comparisons), and the message via
`extractMessage`; in the 400 case the body is re-read and an array-valued
`message` field is joined with ", ". -/
def getHttpErrorInfo (e : HttpException) : Except JsError (ResponseInfo × MsgVal) :=
  match extractMessage e with
  | .error err => .error err
  | .ok msg =>
    match e.status with
    | 400 =>
      let message :=
        match e.body with
        | .obj (some (.arr xs)) => MsgVal.str (String.intercalate ", " xs)
        | _ => msg
      .ok (BAD_REQUEST, message)
    | 401 => .ok (UNAUTHORIZED, msg)
    | 403 => .ok (FORBIDDEN, msg)
    | 404 => .ok (NOT_FOUND, msg)
    | 409 => .ok (CONFLICT, msg)
    | 410 => .ok (GONE, msg)
    | 413 => .ok (PAYLOAD_TOO_LARGE, msg)
    | 415 => .ok (UNSUPPORTED_MEDIA_TYPE, msg)
    | 422 => .ok (UNPROCESSABLE_ENTITY, msg)
    | 500 => .ok (INTERNAL_SERVER_ERROR, msg)
    | 501 => .ok (NOT_IMPLEMENTED, msg)
    | 503 => .ok (SERVICE_UNAVAILABLE, msg)
    | _ => .ok (INTERNAL_SERVER_ERROR, msg)

/-- The fixed status → category table as the spec states it, written from the
spec's words for comparison with `getHttpErrorInfo` (refinement check). -/
def specStatusTable (status : Nat) : ResponseInfo :=
  match status with
  | 400 => BAD_REQUEST
  | 401 => UNAUTHORIZED
  | 403 => FORBIDDEN
  | 404 => NOT_FOUND
  | 409 => CONFLICT
  | 410 => GONE
  | 413 => PAYLOAD_TOO_LARGE
  | 415 => UNSUPPORTED_MEDIA_TYPE
  | 422 => UNPROCESSABLE_ENTITY
  | 500 => INTERNAL_SERVER_ERROR
  | 501 => NOT_IMPLEMENTED
  | 503 => SERVICE_UNAVAILABLE
  | _ => INTERNAL_SERVER_ERROR

/-- The info component of a successful `getHttpErrorInfo` is the table
lookup (shared auxiliary lemma). -/
theorem getHttpErrorInfo_table_aux (e : HttpException) (i : ResponseInfo)
    (m : MsgVal) (h : getHttpErrorInfo e = Except.ok (i, m)) :
    i = specStatusTable e.status := by
  obtain ⟨status, body, emsg, ename, estk⟩ := e
  unfold getHttpErrorInfo at h
  cases hb : extractMessage ⟨status, body, emsg, ename, estk⟩ with
  | error err => rw [hb] at h; exact absurd h (by simp)
  | ok msg =>
    rw [hb] at h
    unfold specStatusTable
    split at h <;> (try split at h) <;> (try split) <;> simp_all

/-- Claim C1: for every `HttpException` whose resolution succeeds, the
`ResponseInfo` resolved by `getHttpErrorInfo` is exactly the category of the
fixed 12-entry table, with `INTERNAL_SERVER_ERROR` for every other status. -/
theorem getHttpErrorInfo_matches_table (e : HttpException) (i : ResponseInfo)
    (m : MsgVal) (h : getHttpErrorInfo e = Except.ok (i, m)) :
    i = specStatusTable e.status :=
  getHttpErrorInfo_table_aux e i m h

/-- Witness for C1 at a concrete input: a 404 exception resolves to the
table's entry for 404, namely `NOT_FOUND`. -/
theorem getHttpErrorInfo_matches_table_witness :
    getHttpErrorInfo ⟨404, RespBody.str "Not Found", "Not Found", "NotFoundException", none⟩
      = Except.ok (NOT_FOUND, MsgVal.str "Not Found") ∧
    NOT_FOUND = specStatusTable 404 :=
  ⟨rfl, getHttpErrorInfo_matches_table
    ⟨404, RespBody.str "Not Found", "Not Found", "NotFoundException", none⟩
    NOT_FOUND (MsgVal.str "Not Found") rfl⟩

/-- A raw thrown value as the filter receives it (`exception: unknown`),
split by the `instanceof` facts the code tests: an `HttpException`; an
`EnvUndefinedError` (the environment-configuration-missing error, modelled
from the spec as a plain `Error` subclass distinct from `HttpException`,
carrying `name`/`message`/`stack`); any other `Error` object; or a value
that is not an `Error` at all (thrown string, number, `null`, `undefined`,
...), kept as a printable description. -/
inductive RawFailure where
  | http (e : HttpException)
  | env (name message : String) (stack : Option String)
  | err (name message : String) (stack : Option String)
  | nonError (v : String)
deriving DecidableEq, Repr

/-- The result of `handleException`: either the recognized failure kept
as-is, or the raw value wrapped in `CustomUnExpectedError` /
`CustomUndefinedError` (wrapper classes modelled from the spec, since
`./errors` is not in the source excerpt: each is an `Error` whose `name`
is its class name; no own stack is modelled). -/
inductive ClassifiedError where
  | http (e : HttpException)
  | env (name message : String) (stack : Option String)
  | unexpected (inner : RawFailure)
  | undef (inner : RawFailure)
deriving DecidableEq, Repr

/-- The `.name` an instance exposes (`handledException.name`). For the
wrappers this is the class name, modelled from the spec. -/
def ClassifiedError.nameOf : ClassifiedError → String
  | .http e => e.name
  | .env n _ _ => n
  | .unexpected _ => "CustomUnExpectedError"
  | .undef _ => "CustomUndefinedError"

/-- The `.stack` an instance exposes. Modelled from the spec for the
wrappers: no own stack recorded. -/
def ClassifiedError.stackOf : ClassifiedError → Option String
  | .http e => e.stack
  | .env _ _ s => s
  | .unexpected _ => none
  | .undef _ => none

/-- `isHandledError`: `exception instanceof HttpException || exception
instanceof EnvUndefinedError`. -/
def isHandledError : RawFailure → Bool
  | .http _ => true
  | .env _ _ _ => true
  | .err _ _ _ => false
  | .nonError _ => false

/-- `getUnExpectedError`: wrap an `Error` in `CustomUnExpectedError`. -/
def getUnExpectedError (error : RawFailure) : ClassifiedError :=
  .unexpected error

/-- `getUnDefinedError`: wrap a non-`Error` value in `CustomUndefinedError`. -/
def getUnDefinedError (error : RawFailure) : ClassifiedError :=
  .undef error

/-- `handleException`: keep handled errors as-is, wrap other `Error`s as
unexpected, wrap non-`Error` values as undefined. -/
def handleException (exception : RawFailure) : ClassifiedError :=
  if isHandledError exception then
    match exception with
    | .http e => .http e
    | .env n m s => .env n m s
    | .err n m s => .unexpected (.err n m s)
    | .nonError v => .undef (.nonError v)
  else
    match exception with
    | .err n m s => getUnExpectedError (.err n m s)
    | x => getUnDefinedError x

/-- One `logger.error` call: the message string, plus the optional second
(`stack`) and third (raw error object) positional arguments. -/
structure LogEntry where
  message : String
  stackArg : Option String
  errorArg : Option ClassifiedError
deriving DecidableEq, Repr

/-- Modelled from the spec: `GlobalErrorDto` (`./dto`, not in the source
excerpt) holds the outward error detail `{ message }`.  The field ranges
over `MsgVal` because the runtime value the filter passes in may be a
string or an array. -/
structure GlobalErrorDto where
  message : MsgVal
deriving DecidableEq, Repr

/-- Modelled from the spec: `GlobalErrorDto.create` wraps the message. -/
def GlobalErrorDto.create (message : MsgVal) : GlobalErrorDto :=
  ⟨message⟩

/-- Modelled from the spec: `BaseResponse` is the envelope
`{ requestId, responseInfo, error }`. -/
structure BaseResponse where
  requestId : String
  responseInfo : ResponseInfo
  error : GlobalErrorDto
deriving DecidableEq, Repr

/-- Modelled from the spec: `BaseResponse.create` assembles the envelope. -/
def BaseResponse.create (requestId : String) (info : ResponseInfo)
    (error : GlobalErrorDto) : BaseResponse :=
  ⟨requestId, info, error⟩

/-- Everything `catch` observably does: the `logger.error` calls in order,
the HTTP status passed to `response.status(...)`, and the JSON body. -/
structure CatchResult where
  logs : List LogEntry
  httpStatus : Nat
  body : BaseResponse
deriving DecidableEq, Repr

/-- `GlobalExceptionsFilter.catch`.  `clsRequestId` models
`this.cls.get('requestId')` (absent ⇒ `none`); `?? 'Request ID undefined'`
is `Option.getD`.  The `if/else if` chain over `instanceof` becomes a match
on the classified error; the `handledException.stack || ''` coercion is
`Option.getD ""`; template literals become string concatenation, with
`MsgVal.display` for the JS stringification of the message.  A `TypeError`
raised inside `getHttpErrorInfo` propagates out of `catch` (there is no
try/catch), modelled by the `Except.error` short-circuit. -/
def catchFilter (exception : RawFailure) (clsRequestId : Option String) :
    Except JsError CatchResult :=
  let handled := handleException exception
  let errName := if handled.nameOf = "" then "Error" else handled.nameOf
  let stack := handled.stackOf.getD ""
  let requestId := clsRequestId.getD "Request ID undefined"
  let branch : Except JsError (ResponseInfo × MsgVal × List LogEntry) :=
    match handled with
    | .http e =>
      match getHttpErrorInfo e with
      | .error err => .error err
      | .ok (i, m) => .ok (i, m, [])
    | .unexpected _ =>
      .ok (UNEXPECTED_ERROR, .str "Internal server error",
        [⟨"Request Error - ID: " ++ requestId ++ ", UnDefinedError Occured",
          none, none⟩])
    | .undef _ =>
      .ok (UNDEFINED_ERROR, .str "Internal server error",
        [⟨"Request Error - ID: " ++ requestId ++ ", UnExpectedError Occured",
          none, none⟩])
    | .env _ _ _ =>
      .ok (INTERNAL_SERVER_ERROR, .str "Internal server error", [])
  match branch with
  | .error e => .error e
  | .ok (info, errMessage, branchLogs) =>
    let mainLog : LogEntry :=
      ⟨"Request Error - ID: " ++ requestId ++ ", " ++ errName ++ ": " ++
        errMessage.display, some stack, some handled⟩
    let errDto := GlobalErrorDto.create errMessage
    let errResponse := BaseResponse.create requestId info errDto
    .ok ⟨branchLogs ++ [mainLog], errResponse.responseInfo.status, errResponse⟩

/-- Evaluation of `catch` on a generic `Error` input: wrapped as
`CustomUnExpectedError`, extra branch log, generic outward message. -/
theorem catchFilter_err_eq (n m : String) (st cls : Option String) :
    catchFilter (RawFailure.err n m st) cls =
      Except.ok ⟨[⟨"Request Error - ID: " ++ cls.getD "Request ID undefined" ++
          ", UnDefinedError Occured", none, none⟩,
        ⟨"Request Error - ID: " ++ cls.getD "Request ID undefined" ++ ", " ++
          "CustomUnExpectedError" ++ ": " ++ "Internal server error",
          some "", some (ClassifiedError.unexpected (RawFailure.err n m st))⟩],
        500,
        ⟨cls.getD "Request ID undefined", UNEXPECTED_ERROR,
          ⟨MsgVal.str "Internal server error"⟩⟩⟩ := rfl

/-- Evaluation of `catch` on a non-`Error` input: wrapped as
`CustomUndefinedError`, extra branch log, generic outward message. -/
theorem catchFilter_nonError_eq (v : String) (cls : Option String) :
    catchFilter (RawFailure.nonError v) cls =
      Except.ok ⟨[⟨"Request Error - ID: " ++ cls.getD "Request ID undefined" ++
          ", UnExpectedError Occured", none, none⟩,
        ⟨"Request Error - ID: " ++ cls.getD "Request ID undefined" ++ ", " ++
          "CustomUndefinedError" ++ ": " ++ "Internal server error",
          some "", some (ClassifiedError.undef (RawFailure.nonError v))⟩],
        500,
        ⟨cls.getD "Request ID undefined", UNDEFINED_ERROR,
          ⟨MsgVal.str "Internal server error"⟩⟩⟩ := rfl

/-- Evaluation of `catch` on an `EnvUndefinedError`: kept as-is, but no
`instanceof` branch matches, so the defaults `INTERNAL_SERVER_ERROR` /
`'Internal server error'` survive. -/
theorem catchFilter_env_eq (n m : String) (st cls : Option String) :
    catchFilter (RawFailure.env n m st) cls =
      Except.ok ⟨[⟨"Request Error - ID: " ++ cls.getD "Request ID undefined" ++
          ", " ++ (if n = "" then "Error" else n) ++ ": " ++
          "Internal server error",
          some (st.getD ""), some (ClassifiedError.env n m st)⟩],
        500,
        ⟨cls.getD "Request ID undefined", INTERNAL_SERVER_ERROR,
          ⟨MsgVal.str "Internal server error"⟩⟩⟩ := rfl

/-- Evaluation of `catch` on an `HttpException` whose info resolution
succeeds. -/
theorem catchFilter_http_ok (e : HttpException) (i : ResponseInfo) (m : MsgVal)
    (cls : Option String) (h : getHttpErrorInfo e = Except.ok (i, m)) :
    catchFilter (RawFailure.http e) cls =
      Except.ok ⟨[⟨"Request Error - ID: " ++ cls.getD "Request ID undefined" ++
          ", " ++ (if e.name = "" then "Error" else e.name) ++ ": " ++
          m.display,
          some (e.stack.getD ""), some (ClassifiedError.http e)⟩],
        i.status,
        ⟨cls.getD "Request ID undefined", i, ⟨m⟩⟩⟩ := by
  unfold catchFilter
  simp [handleException, isHandledError, ClassifiedError.nameOf,
    ClassifiedError.stackOf, h, BaseResponse.create, GlobalErrorDto.create]

/-- Evaluation of `catch` on an `HttpException` whose info resolution raises:
the `TypeError` propagates out of `catch`. -/
theorem catchFilter_http_error (e : HttpException) (err : JsError)
    (cls : Option String) (h : getHttpErrorInfo e = Except.error err) :
    catchFilter (RawFailure.http e) cls = Except.error err := by
  unfold catchFilter
  simp [handleException, isHandledError, h]

/-- A string built by appending four pieces after `t` has `t` as a prefix. -/
theorem append_tail5 (t u n v d : String) :
    ∃ rest, t ++ u ++ n ++ v ++ d = t ++ rest :=
  ⟨u ++ (n ++ (v ++ d)), by simp [String.append_assoc]⟩

/-- Claim C2: for every input that is neither an `HttpException` nor the
environment-configuration error, the body message is exactly
"Internal server error" and the `ResponseInfo` is `UNEXPECTED_ERROR` for
`Error` inputs and `UNDEFINED_ERROR` for non-`Error` inputs; the whole body
is a constant independent of the input's own message, which therefore never
appears in it. -/
theorem unrecognized_failures_generic_message :
    (∀ (n m : String) (st cls : Option String),
      (catchFilter (RawFailure.err n m st) cls).map (fun r => r.body) =
        Except.ok (BaseResponse.create (cls.getD "Request ID undefined")
          UNEXPECTED_ERROR
          (GlobalErrorDto.create (MsgVal.str "Internal server error")))) ∧
    (∀ (v : String) (cls : Option String),
      (catchFilter (RawFailure.nonError v) cls).map (fun r => r.body) =
        Except.ok (BaseResponse.create (cls.getD "Request ID undefined")
          UNDEFINED_ERROR
          (GlobalErrorDto.create (MsgVal.str "Internal server error")))) :=
  ⟨fun _ _ _ _ => rfl, fun _ _ => rfl⟩

/-- Claim C10: an `EnvUndefinedError` (not an `HttpException`) gets response
category `INTERNAL_SERVER_ERROR`, HTTP status 500 and body message exactly
"Internal server error"; its own message is not surfaced. -/
theorem env_error_gets_internal_server_error (n m : String)
    (st cls : Option String) :
    (catchFilter (RawFailure.env n m st) cls).map
        (fun r => (r.body.responseInfo, r.httpStatus, r.body.error.message)) =
      Except.ok (INTERNAL_SERVER_ERROR, 500, MsgVal.str "Internal server error") :=
  rfl

/-- Claim C4 (refuted by the code): `catch` itself raises a `TypeError` on an
`HttpException` whose attached response body is `null` — the `.message`
access in `getHttpErrorInfo` is unguarded, so the failure propagates instead
of degrading to the `UndefinedFailure` path. -/
theorem catch_throws_on_null_body :
    catchFilter
        (RawFailure.http ⟨404, RespBody.null, "Not Found", "HttpException", none⟩)
        (some "req-1") =
      Except.error JsError.typeError :=
  rfl

/-- Claim C7 (refuted by the code): for a non-400 `HttpException` whose body
`message` field is an array, the array is written into `error.message`
unchanged, so `error.message` is not a string (while the HTTP status still
equals `responseInfo.status`). -/
theorem array_message_leaks_in_body :
    (catchFilter
        (RawFailure.http ⟨404, RespBody.obj (some (MsgVal.arr ["a", "b"])),
          "fallback", "NotFoundException", none⟩)
        (some "req-2")).map
        (fun r => (r.body.error.message, r.httpStatus, r.body.responseInfo.status)) =
      Except.ok (MsgVal.arr ["a", "b"], 404, 404) :=
  rfl

/-- Claim C6: for a 400 `HttpException` whose body `message` field is an
array of strings, the resolved outward message is the elements joined with
", ", both in `getHttpErrorInfo` and in the written response body. -/
theorem badRequest_array_join (e : HttpException) (xs : List String)
    (hs : e.status = 400) (hb : e.body = RespBody.obj (some (MsgVal.arr xs))) :
    getHttpErrorInfo e =
      Except.ok (BAD_REQUEST, MsgVal.str (String.intercalate ", " xs)) ∧
    ∀ cls, (catchFilter (RawFailure.http e) cls).map
        (fun r => r.body.error.message) =
      Except.ok (MsgVal.str (String.intercalate ", " xs)) := by
  obtain ⟨status, body, emsg, ename, estk⟩ := e
  simp only at hs hb
  subst hs
  subst hb
  exact ⟨rfl, fun _ => rfl⟩

/-- Witness for C6 at the concrete input from the claim: message
`["a required", "b required"]` joins to `"a required, b required"`. -/
theorem badRequest_array_join_witness :
    getHttpErrorInfo ⟨400,
        RespBody.obj (some (MsgVal.arr ["a required", "b required"])),
        "Bad Request", "BadRequestException", none⟩ =
      Except.ok (BAD_REQUEST, MsgVal.str "a required, b required") := by
  have h := (badRequest_array_join ⟨400,
    RespBody.obj (some (MsgVal.arr ["a required", "b required"])),
    "Bad Request", "BadRequestException", none⟩
    ["a required", "b required"] rfl rfl).1
  rw [h]
  rfl

/-- The twelve status codes of the fixed mapping table. -/
def mappedCodes : List Nat :=
  [400, 401, 403, 404, 409, 410, 413, 415, 422, 500, 501, 503]

/-- On mapped codes the table's category carries exactly that status code. -/
theorem specStatusTable_status_of_mapped (s : Nat) (h : s ∈ mappedCodes) :
    (specStatusTable s).status = s := by
  fin_cases h <;> rfl

/-- Counterexample to claim C3: the environment-configuration error is a
recognized failure, yet the written body message is the generic
"Internal server error", not the failure's own message. -/
theorem env_error_message_not_verbatim :
    (catchFilter
        (RawFailure.env "EnvUndefinedError" "DB_HOST is not defined" none)
        (some "req-5")).map (fun r => r.body.error.message) =
      Except.ok (MsgVal.str "Internal server error") ∧
    MsgVal.str "Internal server error" ≠ MsgVal.str "DB_HOST is not defined" :=
  ⟨rfl, by decide⟩

/-- Claim C3 as amended: recognized failures (every `HttpException` and the
`EnvUndefinedError`) are kept as-is by classification; an `HttpException`
whose info resolution succeeds surfaces the extracted message (with the 400
array-join rule) and the status of the resolved category, which equals the
exception's own status exactly when that status is one of the twelve mapped
codes; the `EnvUndefinedError` instead gets status 500 and the generic
message. -/
theorem recognized_failures_kept_and_mapped :
    (∀ e, handleException (RawFailure.http e) = ClassifiedError.http e) ∧
    (∀ n m st, handleException (RawFailure.env n m st) =
      ClassifiedError.env n m st) ∧
    (∀ e i m (cls : Option String), getHttpErrorInfo e = Except.ok (i, m) →
      (catchFilter (RawFailure.http e) cls).map
          (fun r => (r.httpStatus, r.body.error.message)) =
        Except.ok (i.status, m) ∧
      (e.status ∈ mappedCodes → i.status = e.status)) ∧
    (∀ n m (st cls : Option String),
      (catchFilter (RawFailure.env n m st) cls).map
          (fun r => (r.httpStatus, r.body.error.message)) =
        Except.ok (500, MsgVal.str "Internal server error")) := by
  refine ⟨fun e => rfl, fun n m st => rfl, ?_, fun n m st cls => rfl⟩
  intro e i m cls hg
  constructor
  · rw [catchFilter_http_ok e i m cls hg]; rfl
  · intro hmem
    rw [getHttpErrorInfo_table_aux e i m hg]
    exact specStatusTable_status_of_mapped _ hmem

/-- Witness for amended C3 at a concrete input: a 404 exception with string
body "Not Found" yields response status 404 and message "Not Found". -/
theorem recognized_failures_kept_and_mapped_witness :
    (catchFilter
        (RawFailure.http ⟨404, RespBody.str "Not Found", "Not Found",
          "NotFoundException", none⟩)
        (some "req-6")).map
        (fun r => (r.httpStatus, r.body.error.message)) =
      Except.ok (404, MsgVal.str "Not Found") ∧
    NOT_FOUND.status = 404 := by
  have h := recognized_failures_kept_and_mapped.2.2.1
    ⟨404, RespBody.str "Not Found", "Not Found", "NotFoundException", none⟩
    NOT_FOUND (MsgVal.str "Not Found") (some "req-6") rfl
  exact ⟨h.1, h.2 (by decide)⟩

/-- If the response body is not nullish, `getHttpErrorInfo` succeeds
(shared auxiliary lemma). -/
theorem getHttpErrorInfo_ok (e : HttpException) (h : e.body ≠ RespBody.null) :
    ∃ p, getHttpErrorInfo e = Except.ok p := by
  obtain ⟨status, body, emsg, ename, estk⟩ := e
  have hm : ∃ msg,
      extractMessage ⟨status, body, emsg, ename, estk⟩ = Except.ok msg := by
    cases body with
    | str s => exact ⟨_, rfl⟩
    | obj mm =>
      rcases mm with _ | mv
      · exact ⟨_, rfl⟩
      · cases mv with
        | str s => exact ⟨_, rfl⟩
        | arr xs => exact ⟨_, rfl⟩
    | null => exact absurd rfl h
  obtain ⟨msg, hm⟩ := hm
  cases hg : getHttpErrorInfo ⟨status, body, emsg, ename, estk⟩ with
  | ok p => exact ⟨p, rfl⟩
  | error err =>
    unfold getHttpErrorInfo at hg
    rw [hm] at hg
    split at hg <;> (try split at hg) <;> simp_all

/-- Counterexample to claim C9: the handler does not resolve a `ResponseInfo`
for every input — on an `HttpException` with a nullish body it raises
instead. -/
theorem resolution_throws_on_null_body :
    catchFilter
        (RawFailure.http ⟨401, RespBody.null, "Unauthorized",
          "UnauthorizedException", none⟩)
        (some "req-4") =
      Except.error JsError.typeError :=
  rfl

/-- Claim C9 as amended: classification is total — every raw failure maps to
exactly the one expected `ClassifiedError` variant for its shape — and the
handler resolves exactly one `ResponseInfo` and response for every input
except an `HttpException` whose attached body is nullish. -/
theorem classification_and_resolution (f : RawFailure) (cls : Option String)
    (h : ∀ e, f = RawFailure.http e → e.body ≠ RespBody.null) :
    handleException f = (match f with
      | .http e => ClassifiedError.http e
      | .env n m s => ClassifiedError.env n m s
      | .err n m s => ClassifiedError.unexpected (RawFailure.err n m s)
      | .nonError v => ClassifiedError.undef (RawFailure.nonError v)) ∧
    ∃ r, catchFilter f cls = Except.ok r := by
  cases f with
  | http e =>
    obtain ⟨⟨i, m⟩, hg⟩ := getHttpErrorInfo_ok e (h e rfl)
    exact ⟨rfl, ⟨_, catchFilter_http_ok e i m cls hg⟩⟩
  | env n m st => exact ⟨rfl, ⟨_, rfl⟩⟩
  | err n m st => exact ⟨rfl, ⟨_, rfl⟩⟩
  | nonError v => exact ⟨rfl, ⟨_, rfl⟩⟩

/-- Witness for amended C9 at a concrete input: a thrown non-`Error` value is
classified as undefined and handled to a single response. -/
theorem classification_and_resolution_witness :
    handleException (RawFailure.nonError "boom") =
      ClassifiedError.undef (RawFailure.nonError "boom") ∧
    ∃ r, catchFilter (RawFailure.nonError "boom") (some "req-3") =
      Except.ok r :=
  classification_and_resolution (RawFailure.nonError "boom") (some "req-3")
    (by simp)

/-- Counterexample to claim C5: on a generic `Error` input the handler emits
two error-level log entries (the branch log plus the main log), not exactly
one. -/
theorem two_logs_on_unexpected_path :
    (catchFilter (RawFailure.err "Error" "boom" none) (some "req-7")).map
        (fun r => r.logs.length) =
      Except.ok 2 ∧ (2 : Nat) ≠ 1 :=
  ⟨rfl, by decide⟩

/-- Claim C5 as amended: whenever `catch` completes, its final log entry
carries the correlation identifier in its message text, the classified
error's stack (empty string when absent) as the structured stack field, and
the classified error object itself; the total number of error-level entries
is one for recognized failures and two on the wrapped
(unexpected/undefined) paths, whose branch log precedes the main one. -/
theorem final_log_entry_shape (f : RawFailure) (cls : Option String)
    (r : CatchResult) (h : catchFilter f cls = Except.ok r) :
    ∃ entry tail,
      r.logs.getLast? = some entry ∧
      entry.errorArg = some (handleException f) ∧
      entry.stackArg = some ((handleException f).stackOf.getD "") ∧
      entry.message =
        "Request Error - ID: " ++ cls.getD "Request ID undefined" ++ tail ∧
      r.logs.length = (if isHandledError f then 1 else 2) := by
  cases f with
  | http e =>
    cases hg : getHttpErrorInfo e with
    | error err =>
      rw [catchFilter_http_error e err cls hg] at h
      exact absurd h (by simp)
    | ok p =>
      obtain ⟨i, m⟩ := p
      rw [catchFilter_http_ok e i m cls hg] at h
      injection h with h
      subst h
      refine ⟨_, ", " ++ ((if e.name = "" then "Error" else e.name) ++
        (": " ++ m.display)), rfl, rfl, rfl, ?_, rfl⟩
      simp [String.append_assoc]
  | env n m st =>
    rw [catchFilter_env_eq n m st cls] at h
    injection h with h
    subst h
    refine ⟨_, ", " ++ ((if n = "" then "Error" else n) ++
      (": " ++ "Internal server error")), rfl, rfl, rfl, ?_, rfl⟩
    simp [String.append_assoc]
  | err n m st =>
    rw [catchFilter_err_eq n m st cls] at h
    injection h with h
    subst h
    refine ⟨_, ", " ++ ("CustomUnExpectedError" ++
      (": " ++ "Internal server error")), rfl, rfl, rfl, ?_, rfl⟩
    simp [String.append_assoc]
  | nonError v =>
    rw [catchFilter_nonError_eq v cls] at h
    injection h with h
    subst h
    refine ⟨_, ", " ++ ("CustomUndefinedError" ++
      (": " ++ "Internal server error")), rfl, rfl, rfl, ?_, rfl⟩
    simp [String.append_assoc]

/-- The concrete `catch` output for a thrown non-`Error` value "boom" under
request id "rid-8", used to witness the amended C5. -/
def c5WitnessResult : CatchResult :=
  ⟨[⟨"Request Error - ID: rid-8, UnExpectedError Occured", none, none⟩,
    ⟨"Request Error - ID: rid-8, CustomUndefinedError: Internal server error",
      some "", some (ClassifiedError.undef (RawFailure.nonError "boom"))⟩],
    500,
    ⟨"rid-8", UNDEFINED_ERROR, ⟨MsgVal.str "Internal server error"⟩⟩⟩

/-- Witness for amended C5 at a concrete input. -/
theorem final_log_entry_shape_witness :
    ∃ entry tail,
      c5WitnessResult.logs.getLast? = some entry ∧
      entry.errorArg = some (handleException (RawFailure.nonError "boom")) ∧
      entry.stackArg =
        some ((handleException (RawFailure.nonError "boom")).stackOf.getD "") ∧
      entry.message = "Request Error - ID: " ++
        (some "rid-8" : Option String).getD "Request ID undefined" ++ tail ∧
      c5WitnessResult.logs.length =
        (if isHandledError (RawFailure.nonError "boom") then 1 else 2) :=
  final_log_entry_shape (RawFailure.nonError "boom") (some "rid-8")
    c5WitnessResult rfl

/-- Claim C8: when the context store has no request id, both the response
body and every log entry use the literal "Request ID undefined". -/
theorem requestId_defaults_sentinel (f : RawFailure) (r : CatchResult)
    (h : catchFilter f none = Except.ok r) :
    r.body.requestId = "Request ID undefined" ∧
    ∀ entry ∈ r.logs, ∃ rest,
      entry.message = "Request Error - ID: Request ID undefined" ++ rest := by
  cases f with
  | http e =>
    cases hg : getHttpErrorInfo e with
    | error err =>
      rw [catchFilter_http_error e err none hg] at h
      exact absurd h (by simp)
    | ok p =>
      obtain ⟨i, m⟩ := p
      rw [catchFilter_http_ok e i m none hg] at h
      injection h with h
      subst h
      refine ⟨rfl, ?_⟩
      intro entry hmem
      simp only [List.mem_singleton] at hmem
      subst hmem
      exact append_tail5 "Request Error - ID: Request ID undefined" ", " _ ": " _
  | env n m st =>
    rw [catchFilter_env_eq n m st none] at h
    injection h with h
    subst h
    refine ⟨rfl, ?_⟩
    intro entry hmem
    simp only [List.mem_singleton] at hmem
    subst hmem
    exact append_tail5 "Request Error - ID: Request ID undefined" ", " _ ": " _
  | err n m st =>
    rw [catchFilter_err_eq n m st none] at h
    injection h with h
    subst h
    refine ⟨rfl, ?_⟩
    intro entry hmem
    simp only [List.mem_cons, List.not_mem_nil, or_false] at hmem
    rcases hmem with rfl | rfl
    · exact ⟨", UnDefinedError Occured", rfl⟩
    · exact append_tail5 "Request Error - ID: Request ID undefined" ", " _ ": " _
  | nonError v =>
    rw [catchFilter_nonError_eq v none] at h
    injection h with h
    subst h
    refine ⟨rfl, ?_⟩
    intro entry hmem
    simp only [List.mem_cons, List.not_mem_nil, or_false] at hmem
    rcases hmem with rfl | rfl
    · exact ⟨", UnExpectedError Occured", rfl⟩
    · exact append_tail5 "Request Error - ID: Request ID undefined" ", " _ ": " _

/-- The concrete `catch` output for a thrown non-`Error` value "crash" with
no request id in the context store, used to witness C8. -/
def c8WitnessResult : CatchResult :=
  ⟨[⟨"Request Error - ID: Request ID undefined, UnExpectedError Occured",
      none, none⟩,
    ⟨"Request Error - ID: Request ID undefined, CustomUndefinedError: Internal server error",
      some "", some (ClassifiedError.undef (RawFailure.nonError "crash"))⟩],
    500,
    ⟨"Request ID undefined", UNDEFINED_ERROR,
      ⟨MsgVal.str "Internal server error"⟩⟩⟩

/-- Witness for C8 at a concrete input. -/
theorem requestId_defaults_sentinel_witness :
    c8WitnessResult.body.requestId = "Request ID undefined" ∧
    ∃ rest,
      (LogEntry.mk
        "Request Error - ID: Request ID undefined, UnExpectedError Occured"
        none none).message =
        "Request Error - ID: Request ID undefined" ++ rest :=
  ⟨(requestId_defaults_sentinel (RawFailure.nonError "crash")
      c8WitnessResult rfl).1,
   (requestId_defaults_sentinel (RawFailure.nonError "crash")
      c8WitnessResult rfl).2
     ⟨"Request Error - ID: Request ID undefined, UnExpectedError Occured",
       none, none⟩ (by simp [c8WitnessResult])⟩
